import Mathlib

/-!
Shallow embedding of the MCP process-registry core of the `daan` repository
(src/src-tauri/src/mcp/control.rs, src/src-tauri/src/mcp/cmd.rs).

The registry is a mutex-guarded map from a process id (String) to a
ManagedProcess holding an optional child handle and an optional stdin handle.
OS-level handles are modelled as abstract Nat tokens.  Mutex poisoning is
modelled as a Boolean on the registry state.  Outcomes of OS calls (writes,
kills, waits, spawns) and concurrent interference between two lock regions of
the same operation are explicit parameters of the embedded functions, so every
code path of the source is reachable in the model.
-/

namespace DaanMcp

/-- Abstract token standing for a tokio `Child` process handle. -/
abbrev ChildHandle := Nat

/-- Abstract token standing for a tokio `ChildStdin` write handle. -/
abbrev StdinHandle := Nat

/-- Mirror of `ManagedProcess` in control.rs: an optional child handle and an
optional stdin handle; both slots are taken (moved out) by their single users. -/
structure ManagedProcess where
  child : Option ChildHandle
  stdin : Option StdinHandle
deriving DecidableEq, Repr

/-- Mirror of `ManagedProcess::new(child)`: child populated, stdin empty. -/
def ManagedProcess.new (c : ChildHandle) : ManagedProcess :=
  ⟨some c, none⟩

/-- Mirror of `ManagedProcess::with_stdin`: sets the stdin slot. -/
def ManagedProcess.with_stdin (p : ManagedProcess) (s : StdinHandle) : ManagedProcess :=
  { p with stdin := some s }

/-- Mirror of `ManagedProcess::into_child`: the child slot of the consumed value. -/
def ManagedProcess.into_child (p : ManagedProcess) : Option ChildHandle :=
  p.child

/-- The map inside the registry mutex: process id to ManagedProcess.
`HashMap` observable behaviour (unique keys) is modelled as a function. -/
abbrev RegMap := String → Option ManagedProcess

/-- Mirror of `HashMap::insert` as used at a fresh key. -/
def RegMap.insert (m : RegMap) (id : String) (p : ManagedProcess) : RegMap :=
  fun k => if k = id then some p else m k

/-- Mirror of `HashMap::remove`: the entry for `id` is gone afterwards. -/
def RegMap.remove (m : RegMap) (id : String) : RegMap :=
  fun k => if k = id then none else m k

/-- In-place mutation of the entry for `id` through `get_mut`, when present. -/
def RegMap.updateAt (m : RegMap) (id : String) (f : ManagedProcess → ManagedProcess) : RegMap :=
  fun k => if k = id then (m id).map f else m k

/-- State of `ProcessRegistry`: the map plus whether the mutex is poisoned
(a prior panic happened inside a critical section). -/
structure Registry where
  poisoned : Bool
  entries : RegMap

@[simp]
lemma RegMap.insert_self (m : RegMap) (id : String) (p : ManagedProcess) :
    m.insert id p id = some p := by
  simp [RegMap.insert]

@[simp]
lemma RegMap.remove_self (m : RegMap) (id : String) :
    m.remove id id = none := by
  simp [RegMap.remove]

@[simp]
lemma RegMap.updateAt_self (m : RegMap) (id : String) (f : ManagedProcess → ManagedProcess) :
    m.updateAt id f id = (m id).map f := by
  simp [RegMap.updateAt]

lemma RegMap.remove_absent (m : RegMap) (id : String) (h : m id = none) :
    m.remove id = m := by
  funext k
  by_cases hk : k = id
  · subst hk; simp [RegMap.remove, h]
  · simp [RegMap.remove, hk]

/-! ## send_message_to_process (cmd.rs, lines 200-278) -/

/-- Step 1 of `send_message_to_process`: under the first lock, look the id up and
take the stdin slot out of the entry.  Errors: poisoned mutex, id not found.
On success, returns the taken slot together with the registry as the lock
region leaves it. -/
def sendStep1 (reg : Registry) (id : String) :
    Except String (Option StdinHandle × Registry) :=
  if reg.poisoned then .error "Mutex poisoned"
  else
    match reg.entries id with
    | none => .error ("Process with ID " ++ id ++ " not found.")
    | some mp =>
        .ok (mp.stdin,
             { reg with entries := reg.entries.updateAt id (fun p => { p with stdin := none }) })

/-- Step 4 of `send_message_to_process`: under the re-acquired lock, try to put
the taken stdin handle back.  If the entry still exists and its slot is empty,
restore; if the slot is occupied or the entry is gone, the handle is dropped.
A poisoned mutex is an error (`map_err` + question mark in the source). -/
def sendRestore (reg : Registry) (id : String) (h : StdinHandle) :
    Except String Registry :=
  if reg.poisoned then .error "Mutex poisoned while trying to return stdin"
  else
    match reg.entries id with
    | some mp =>
        if mp.stdin = none then
          .ok { reg with entries := reg.entries.updateAt id (fun p => { p with stdin := some h }) }
        else
          .ok reg
    | none => .ok reg

/-- Observable trace of one `send_message_to_process` call. -/
structure SendRun where
  result : Except String Unit
  /-- The bytes handed to `write_all`, if the write step was reached. -/
  written : Option String
  final : Registry

/-- Mirror of `send_message_to_process`.  `writeErr` is the outcome of the OS
write (`none` = success); `interfere` is what the rest of the system does to
the registry between the two lock regions. -/
def send (reg : Registry) (id msg : String) (writeErr : Option String)
    (interfere : Registry → Registry) : SendRun :=
  match sendStep1 reg id with
  | .error e => ⟨.error e, none, reg⟩
  | .ok (none, reg1) =>
      ⟨.error ("Stdin for process " ++ id ++ " was not available."), none, reg1⟩
  | .ok (some h, reg1) =>
      let payload := msg ++ "\n"
      let reg4 := interfere reg1
      match sendRestore reg4 id h with
      | .error e => ⟨.error e, some payload, reg4⟩
      | .ok regF =>
          match writeErr with
          | none => ⟨.ok (), some payload, regF⟩
          | some e => ⟨.error ("Failed to write to stdin: " ++ e), some payload, regF⟩

/-! ## stop_external_process (cmd.rs, lines 280-335) -/

/-- Observable trace of one `stop_external_process` call. -/
structure StopRun where
  result : Except String Unit
  /-- The child handle a kill signal was issued on, if any. -/
  killed : Option ChildHandle
  final : Registry

/-- Mirror of `stop_external_process`.  Under the lock, remove the entry and
take its child via `into_child`; outside the lock, kill if a handle was
obtained.  `killErr` is the outcome of `child.kill()` (`none` = success). -/
def stop (reg : Registry) (id : String) (killErr : Option String) : StopRun :=
  if reg.poisoned then
    ⟨.error "Mutex poisoned: poisoned lock: another task failed inside", none, reg⟩
  else
    let removed := reg.entries id
    let reg1 : Registry := { reg with entries := reg.entries.remove id }
    match removed.bind ManagedProcess.into_child with
    | some c =>
        match killErr with
        | none => ⟨.ok (), some c, reg1⟩
        | some e => ⟨.error ("Failed to kill process: " ++ e), some c, reg1⟩
    | none =>
        ⟨.error ("Process with ID " ++ id ++
                 " not found or already being monitored/stopped."), none, reg1⟩

/-! ## monitor_process (control.rs, lines 195-292) -/

/-- Step 1 of `monitor_process`: under the lock, take the child handle out of
the entry (`take_child`).  A poisoned mutex or a missing entry is only logged:
the task continues with no handle. -/
def monitorTakeChild (reg : Registry) (id : String) : Option ChildHandle × Registry :=
  if reg.poisoned then (none, reg)
  else
    match reg.entries id with
    | some mp =>
        (mp.child, { reg with entries := reg.entries.updateAt id (fun p => { p with child := none }) })
    | none => (none, reg)

/-- Step 4 of `monitor_process`: under the lock, remove the entry if still
present; absence is a no-op, a poisoned mutex is only logged. -/
def monitorRemove (reg : Registry) (id : String) : Registry :=
  if reg.poisoned then reg
  else { reg with entries := reg.entries.remove id }

/-- Observable trace of one `monitor_process` task. -/
structure MonitorRun where
  /-- The child handle waited on, if one was obtained. -/
  waited : Option ChildHandle
  events : List (String × String)
  final : Registry

/-- Mirror of `monitor_process`.  `waitOutcome` is the result of `child.wait()`
(exit-status text or error text); `interfere` is what the rest of the system
does to the registry while the monitor waits outside the lock. -/
def monitor_process (reg : Registry) (id : String)
    (waitOutcome : Except String String) (interfere : Registry → Registry) : MonitorRun :=
  let s1 := monitorTakeChild reg id
  match s1.1 with
  | none => ⟨none, [], monitorRemove (interfere s1.2) id⟩
  | some c =>
      let evs :=
        match waitOutcome with
        | .ok status => [("process_closed_" ++ id, "Exited with status: " ++ status)]
        | .error e => [("process_error_" ++ id, "Error waiting for process: " ++ e)]
      ⟨some c, evs, monitorRemove (interfere s1.2) id⟩

/-! ## The stdout pump (control.rs handle_stdout, lines 105-150) and the
stderr pump (the task spawned inline in cmd.rs, lines 74-96) -/

/-- One return of `reader.read_line`: Ok(0) at end of stream, Ok(n) delivering
the buffered line, or an I/O error. -/
inductive ReadOutcome where
  | eof
  | line (s : String)
  | err (e : String)
deriving DecidableEq, Repr

/-- Model of Rust `str::trim` as used on each read line: strip leading and
trailing whitespace characters. -/
def rustTrim (s : String) : String :=
  ⟨(((s.data.dropWhile Char.isWhitespace).reverse).dropWhile Char.isWhitespace).reverse⟩

/-- Mirror of `handle_stdout` in control.rs, as a function from the sequence of
read outcomes to the events emitted.  A non-empty trimmed line emits
`process_message_` followed by the id with the trimmed text as payload; an
empty trimmed line emits nothing; a read error emits `process_error_` followed
by the id and breaks the loop. -/
def handle_stdout (id : String) : List ReadOutcome → List (String × String)
  | [] => []
  | .eof :: _ => []
  | .line s :: rest =>
      if rustTrim s = "" then handle_stdout id rest
      else ("process_message_" ++ id, rustTrim s) :: handle_stdout id rest
  | .err e :: _ => [("process_error_" ++ id, "Error reading stdout: " ++ e)]

/-- Mirror of the stderr-reading task spawned inline in
`spawn_and_manage_process_internal` (cmd.rs lines 74-96): every delivered line
emits `process_stderr_` followed by the id with the trimmed text — with no
emptiness check — and a read error only breaks the loop, emitting nothing. -/
def stderrPump (id : String) : List ReadOutcome → List (String × String)
  | [] => []
  | .eof :: _ => []
  | .line s :: rest => ("process_stderr_" ++ id, rustTrim s) :: stderrPump id rest
  | .err _ :: _ => []

/-! ## spawn_and_manage_process_internal (cmd.rs, lines 15-117) -/

/-- The `std::io::ErrorKind` cases the retry logic distinguishes. -/
inductive IoErrorKind where
  | notFound
  | permissionDenied
  | other
deriving DecidableEq, Repr

/-- A `std::io::Error`: its kind and its display text. -/
structure IoError where
  kind : IoErrorKind
  msg : String
deriving DecidableEq, Repr

/-- How `spawn_and_manage_process_internal` ends: a process id on success, an
`std::io::Error` on failure, or a panic (the `.unwrap()` on the registry lock
at the insert, cmd.rs lines 56-59, when the mutex is poisoned). -/
inductive SpawnResult where
  | ok (id : String)
  | err (e : IoError)
  | panic (msg : String)
deriving DecidableEq, Repr

/-- The ordered side effects of `spawn_and_manage_process_internal` after a
successful OS spawn: killing the child when its handle is dropped without
having been stored (`kill_on_drop(true)`, cmd.rs line 29), the registry
insert, and the three `tokio::spawn` launches. -/
inductive SpawnAction where
  | killChildOnDrop
  | insertEntry
  | launchStdoutPump
  | launchStderrPump
  | launchMonitor
deriving DecidableEq, Repr

/-- Observable trace of one `spawn_and_manage_process_internal` call. -/
structure SpawnRun where
  result : SpawnResult
  final : Registry
  actions : List SpawnAction

/-- Mirror of `spawn_and_manage_process_internal`.  `spawnOutcome` is what
`cmd.spawn()` returns; `stdinH`, `stdoutH`, `stderrH` are the stream handles
the created child exposes (`none` models a failed capture); `childH` is the
child handle; `newId` the generated UUID.  Failure to capture any stream
returns the corresponding error before the insert, dropping (and thereby
killing) the child; a poisoned lock panics at the insert; on success the
entry (child and stdin both populated) is inserted and the three background
tasks are launched, in that order. -/
def spawn_and_manage_process_internal (reg : Registry) (newId : String)
    (spawnOutcome : Except IoError Unit)
    (stdinH : Option StdinHandle) (stdoutH : Option Nat) (stderrH : Option Nat)
    (childH : ChildHandle) : SpawnRun :=
  match spawnOutcome with
  | .error e => ⟨.err e, reg, []⟩
  | .ok _ =>
      match stdinH with
      | none => ⟨.err ⟨.other, "Failed to capture stdin"⟩, reg, [.killChildOnDrop]⟩
      | some sIn =>
          match stdoutH with
          | none => ⟨.err ⟨.other, "Failed to capture stdout"⟩, reg, [.killChildOnDrop]⟩
          | some _ =>
              match stderrH with
              | none => ⟨.err ⟨.other, "Failed to capture stderr"⟩, reg, [.killChildOnDrop]⟩
              | some _ =>
                  if reg.poisoned then
                    ⟨.panic "called `Result::unwrap()` on an `Err` value", reg, [.killChildOnDrop]⟩
                  else
                    ⟨.ok newId,
                     { reg with entries :=
                         reg.entries.insert newId ((ManagedProcess.new childH).with_stdin sIn) },
                     [.insertEntry, .launchStdoutPump, .launchStderrPump, .launchMonitor]⟩

/-! ## start_external_process and the shell-fallback retry (cmd.rs, lines 119-198) -/

/-- The single-quote character, kept out of string literals. -/
def squote : Char := Char.ofNat 39

/-- Model of the external `shell_words::quote`: an empty word becomes a pair of
single quotes; a word containing a character special to the POSIX shell is
wrapped in single quotes with every inner single quote turned into the
quote-backslash-quote-quote escape; a plain word passes unchanged. -/
def shellSpecial (c : Char) : Bool :=
  c = ' ' || c = '\t' || c = '\n' || c = '\r' || c = squote || c = '"' ||
  c = '$' || c = '\\' || c = '|' || c = '&' || c = ';' || c = '<' || c = '>' ||
  c = '(' || c = ')' || c = '*' || c = '?' || c = '#' || c = '~' ||
  c = '\x60' || c = '\x7b' || c = '\x7d' || c = '[' || c = ']' || c = '!'

/-- Escape of one character inside a single-quoted shell word. -/
def shellEscChar (c : Char) : String :=
  if c = squote then
    String.singleton squote ++ "\\" ++ String.singleton squote ++ String.singleton squote
  else
    String.singleton c

/-- Model of `shell_words::quote` on one word (see `shellSpecial`). -/
def shellQuote (w : String) : String :=
  if w = "" then String.singleton squote ++ String.singleton squote
  else if w.any shellSpecial then
    String.singleton squote ++ String.join (w.toList.map shellEscChar) ++ String.singleton squote
  else w

/-- Model of the external `shell_words::join`: quote each word, join with
single spaces. -/
def shell_words_join (parts : List String) : String :=
  String.intercalate " " (parts.map shellQuote)

/-- The fallback command the retry actually runs (cmd.rs lines 143-161):
`cmd.exe` with `/c`, the original command and the original args on the
Windows family, otherwise `sh -c` with the shell-joined original command
line as the single argument. -/
def retryCommand (windows : Bool) (command : String) (args : List String) :
    String × List String :=
  if windows then ("cmd.exe", "/c" :: command :: args)
  else ("sh", ["-c", shell_words_join (command :: args)])

/-- Rust `Debug` rendering of a `Vec<String>`, as it appears in the spawn
error messages. -/
def debugFmtList (xs : List String) : String :=
  "[" ++ String.intercalate ", " (xs.map (fun s => "\"" ++ s ++ "\"")) ++ "]"

/-- Observable trace of one `start_external_process` call. -/
structure StartRun where
  result : Except String String
  /-- The commands actually handed to the spawner, in order. -/
  attempts : List (String × List String)

/-- Mirror of `start_external_process`.  `outcome` is what the OS answers to a
given attempted command line (a process id or an `std::io::Error`).  A first
failure of kind `NotFound` triggers exactly one retry through the platform
shell; any other first error, and any retry error, is formatted and returned
with no further attempt. -/
def start_external_process (windows : Bool) (command : String) (args : List String)
    (outcome : String → List String → Except IoError String) : StartRun :=
  match outcome command args with
  | .ok pid => ⟨.ok pid, [(command, args)]⟩
  | .error e =>
      if e.kind = .notFound then
        let rc := retryCommand windows command args
        match outcome rc.1 rc.2 with
        | .ok pid => ⟨.ok pid, [(command, args), rc]⟩
        | .error e2 =>
            ⟨.error ("Failed to start process on retry (cmd: \x27" ++ rc.1 ++
                     "\x27, args: " ++ debugFmtList rc.2 ++ "): " ++ e2.msg),
             [(command, args), rc]⟩
      else
        ⟨.error ("Failed to start process (cmd: \x27" ++ command ++
                 "\x27, args: " ++ debugFmtList args ++ "): " ++ e.msg),
         [(command, args)]⟩

/-! ## The stop / natural-exit race (claim C1)

The registry-touching atomic steps of the two competitors: `stop` performs one
critical region (remove plus take of the child), the exit monitor performs two
(take of the child, then remove).  The monitor's take always precedes its
remove, so three interleavings exist. -/

/-- The three interleavings of stop's single registry step S among the
monitor's take T and remove R (T before R). -/
inductive RaceOrder where
  | stopFirst
  | stopBetween
  | stopLast
deriving DecidableEq, Repr

/-- Observable outcome of one stop / exit-monitor race. -/
structure RaceOutcome where
  /-- The child handle `stop` obtained and killed, if any. -/
  stopGot : Option ChildHandle
  /-- The child handle the monitor obtained and waited on, if any. -/
  monGot : Option ChildHandle
  final : Registry

/-- Run `stop` and the exit monitor's two registry steps against the same
registry in the given interleaving. -/
def runRace (reg : Registry) (id : String) (order : RaceOrder)
    (killErr : Option String) : RaceOutcome :=
  match order with
  | .stopFirst =>
      let s := stop reg id killErr
      let t := monitorTakeChild s.final id
      ⟨s.killed, t.1, monitorRemove t.2 id⟩
  | .stopBetween =>
      let t := monitorTakeChild reg id
      let s := stop t.2 id killErr
      ⟨s.killed, t.1, monitorRemove s.final id⟩
  | .stopLast =>
      let t := monitorTakeChild reg id
      let r := monitorRemove t.2 id
      let s := stop r id killErr
      ⟨s.killed, t.1, s.final⟩

@[simp]
lemma RegMap.remove_remove (m : RegMap) (id : String) :
    (m.remove id).remove id = m.remove id :=
  RegMap.remove_absent _ _ (by simp)

/-! ## Claim theorems -/

/-- C1: when a stop operation races with natural process exit for the same
id, in every interleaving exactly one of stop and the exit monitor obtains
the child handle from the registry entry; the one that finds the slot empty
kills nothing (stop) or waits on nothing (monitor); the registry ends with
no entry for the id; and a further removal step is a no-op (the map is
unchanged and a repeated stop kills nothing). -/
theorem C1_stop_exit_race (reg : Registry) (id : String) (c : ChildHandle)
    (sIn : Option StdinHandle) (killErr : Option String) (order : RaceOrder)
    (hp : reg.poisoned = false) (he : reg.entries id = some ⟨some c, sIn⟩) :
    (((runRace reg id order killErr).stopGot = some c ∧
      (runRace reg id order killErr).monGot = none) ∨
     ((runRace reg id order killErr).stopGot = none ∧
      (runRace reg id order killErr).monGot = some c)) ∧
    (runRace reg id order killErr).final.entries id = none ∧
    (monitorRemove (runRace reg id order killErr).final id).entries =
      (runRace reg id order killErr).final.entries ∧
    (stop (runRace reg id order killErr).final id killErr).killed = none := by
  cases order <;> cases killErr <;>
    simp [runRace, stop, monitorTakeChild, monitorRemove, ManagedProcess.into_child,
          hp, he, RegMap.remove, RegMap.updateAt]

/-- Witness for C1: a concrete race in the interleaving where stop's critical
region runs between the monitor's take and the monitor's remove. -/
theorem C1_stop_exit_race_witness :
    (((runRace ⟨false, fun k => if k = "p1" then some ⟨some 7, some 3⟩ else none⟩
        "p1" .stopBetween none).stopGot = some 7 ∧
      (runRace ⟨false, fun k => if k = "p1" then some ⟨some 7, some 3⟩ else none⟩
        "p1" .stopBetween none).monGot = none) ∨
     ((runRace ⟨false, fun k => if k = "p1" then some ⟨some 7, some 3⟩ else none⟩
        "p1" .stopBetween none).stopGot = none ∧
      (runRace ⟨false, fun k => if k = "p1" then some ⟨some 7, some 3⟩ else none⟩
        "p1" .stopBetween none).monGot = some 7)) ∧
    (runRace ⟨false, fun k => if k = "p1" then some ⟨some 7, some 3⟩ else none⟩
        "p1" .stopBetween none).final.entries "p1" = none ∧
    (monitorRemove (runRace ⟨false, fun k => if k = "p1" then some ⟨some 7, some 3⟩ else none⟩
        "p1" .stopBetween none).final "p1").entries =
      (runRace ⟨false, fun k => if k = "p1" then some ⟨some 7, some 3⟩ else none⟩
        "p1" .stopBetween none).final.entries ∧
    (stop (runRace ⟨false, fun k => if k = "p1" then some ⟨some 7, some 3⟩ else none⟩
        "p1" .stopBetween none).final "p1" none).killed = none :=
  C1_stop_exit_race _ "p1" 7 (some 3) none .stopBetween rfl rfl

/-- C7: for an id absent from the registry, send performs no write and fails
(with the not-found error when the lock is healthy, never with success), and
stop issues no kill and fails (with the not-found-or-already-handled error
when the lock is healthy, never with success). -/
theorem C7_never_spawned (reg : Registry) (id msg : String)
    (writeErr killErr : Option String) (interfere : Registry → Registry)
    (habs : reg.entries id = none) :
    (send reg id msg writeErr interfere).written = none ∧
    (send reg id msg writeErr interfere).result ≠ .ok () ∧
    (reg.poisoned = false →
      (send reg id msg writeErr interfere).result =
        .error ("Process with ID " ++ id ++ " not found.")) ∧
    (stop reg id killErr).killed = none ∧
    (stop reg id killErr).result ≠ .ok () ∧
    (reg.poisoned = false →
      (stop reg id killErr).result =
        .error ("Process with ID " ++ id ++
                " not found or already being monitored/stopped.")) := by
  cases hp : reg.poisoned <;>
    simp [send, sendStep1, stop, habs, hp]

/-- Witness for C7: a never-spawned id against an empty, healthy registry. -/
theorem C7_never_spawned_witness :
    (send ⟨false, fun _ => none⟩ "ghost" "m" none id).written = none ∧
    (send ⟨false, fun _ => none⟩ "ghost" "m" none id).result ≠ .ok () ∧
    ((⟨false, fun _ => none⟩ : Registry).poisoned = false →
      (send ⟨false, fun _ => none⟩ "ghost" "m" none id).result =
        .error ("Process with ID " ++ "ghost" ++ " not found.")) ∧
    (stop ⟨false, fun _ => none⟩ "ghost" none).killed = none ∧
    (stop ⟨false, fun _ => none⟩ "ghost" none).result ≠ .ok () ∧
    ((⟨false, fun _ => none⟩ : Registry).poisoned = false →
      (stop ⟨false, fun _ => none⟩ "ghost" none).result =
        .error ("Process with ID " ++ "ghost" ++
                " not found or already being monitored/stopped.")) :=
  C7_never_spawned ⟨false, fun _ => none⟩ "ghost" "m" none none id rfl

/-- C10: when send finds the entry but its stdin slot is empty, it returns the
stdin-unavailable error, writes nothing, and the registry (the child slot, the
empty stdin slot, and the entry itself) is exactly as before the call. -/
theorem C10_stdin_unavailable_frame (reg : Registry) (id msg : String)
    (mp : ManagedProcess) (writeErr : Option String) (interfere : Registry → Registry)
    (hp : reg.poisoned = false) (he : reg.entries id = some mp) (hs : mp.stdin = none) :
    (send reg id msg writeErr interfere).result =
      .error ("Stdin for process " ++ id ++ " was not available.") ∧
    (send reg id msg writeErr interfere).written = none ∧
    (send reg id msg writeErr interfere).final = reg := by
  have hmap : reg.entries.updateAt id (fun p => { p with stdin := none }) = reg.entries := by
    funext k
    by_cases hk : k = id
    · subst hk
      rw [RegMap.updateAt_self, he]
      cases mp with
      | mk cSlot sSlot => simp_all
    · simp [RegMap.updateAt, hk]
  have hstep : sendStep1 reg id = .ok (none, reg) := by
    obtain ⟨p, ents⟩ := reg
    simp only [Registry.poisoned] at hp
    subst hp
    simp only [Registry.entries] at he hmap
    simp [sendStep1, he, hs, hmap]
  simp [send, hstep]

/-- Witness for C10: a concrete registry whose only entry has an empty stdin
slot. -/
theorem C10_stdin_unavailable_frame_witness :
    (send ⟨false, fun k => if k = "q" then some ⟨some 4, none⟩ else none⟩
        "q" "msg" none id).result =
      .error ("Stdin for process " ++ "q" ++ " was not available.") ∧
    (send ⟨false, fun k => if k = "q" then some ⟨some 4, none⟩ else none⟩
        "q" "msg" none id).written = none ∧
    (send ⟨false, fun k => if k = "q" then some ⟨some 4, none⟩ else none⟩
        "q" "msg" none id).final =
      ⟨false, fun k => if k = "q" then some ⟨some 4, none⟩ else none⟩ :=
  C10_stdin_unavailable_frame _ "q" "msg" ⟨some 4, none⟩ none id rfl rfl rfl

/-- C2: after the write step of send, under the re-acquired (healthy) lock:
if the entry still exists with an empty stdin slot, the taken handle is put
back regardless of the write's outcome; if the entry is gone, the registry is
left as found (the handle is dropped); if the slot is already occupied, the
registry is left as found (the taken handle is dropped, the occupant is not
overwritten). -/
theorem C2_stdin_restoration (reg reg1 : Registry) (id msg : String)
    (h : StdinHandle) (writeErr : Option String) (interfere : Registry → Registry)
    (h1 : sendStep1 reg id = .ok (some h, reg1))
    (hp4 : (interfere reg1).poisoned = false) :
    (∀ mp4, (interfere reg1).entries id = some mp4 → mp4.stdin = none →
      (send reg id msg writeErr interfere).final.entries id =
        some { mp4 with stdin := some h }) ∧
    ((interfere reg1).entries id = none →
      (send reg id msg writeErr interfere).final = interfere reg1) ∧
    (∀ mp4 h2, (interfere reg1).entries id = some mp4 → mp4.stdin = some h2 →
      (send reg id msg writeErr interfere).final = interfere reg1) := by
  refine ⟨?_, ?_, ?_⟩
  · intro mp4 hmp hsn
    cases writeErr <;>
      simp [send, h1, sendRestore, hp4, hmp, hsn]
  · intro hnone
    cases writeErr <;>
      simp [send, h1, sendRestore, hp4, hnone]
  · intro mp4 h2 hmp hsome
    cases writeErr <;>
      simp [send, h1, sendRestore, hp4, hmp, hsome]

/-- Witness for C2: a failed write against a concrete single-entry registry
with no concurrent interference; the handle is restored into the slot. -/
theorem C2_stdin_restoration_witness :
    (send ⟨false, fun k => if k = "p" then some ⟨some 5, some 9⟩ else none⟩
        "p" "m" (some "broken pipe") id).final.entries "p" =
      some { (⟨some 5, none⟩ : ManagedProcess) with stdin := some 9 } :=
  (C2_stdin_restoration
      ⟨false, fun k => if k = "p" then some ⟨some 5, some 9⟩ else none⟩
      ⟨false, RegMap.updateAt (fun k => if k = "p" then some ⟨some 5, some 9⟩ else none)
        "p" (fun p => { p with stdin := none })⟩
      "p" "m" 9 (some "broken pipe") id rfl rfl).1 ⟨some 5, none⟩ rfl rfl

/-- C4 as stated is false: a send that reaches the write step does not always
report the write's own outcome — when the registry mutex is found poisoned at
the step-4 re-acquisition, the lock error replaces the write result.  Here the
write step is reached and the write succeeds, yet the caller gets an error. -/
theorem C4_counterexample :
    (send ⟨false, fun k => if k = "p" then some ⟨some 1, some 2⟩ else none⟩
        "p" "hi" none (fun r => ⟨true, r.entries⟩)).written = some "hi\n" ∧
    (send ⟨false, fun k => if k = "p" then some ⟨some 1, some 2⟩ else none⟩
        "p" "hi" none (fun r => ⟨true, r.entries⟩)).result =
      .error "Mutex poisoned while trying to return stdin" := by
  constructor <;> rfl

/-- C4 amended: for a send that reaches the write step, if the re-acquired
lock is healthy the caller gets exactly the write's own success or failure,
whatever the restoration bookkeeping did; if the re-acquired lock is poisoned,
that lock error is returned instead of the write's result. -/
theorem C4_write_result_reporting (reg reg1 : Registry) (id msg : String)
    (h : StdinHandle) (writeErr : Option String) (interfere : Registry → Registry)
    (h1 : sendStep1 reg id = .ok (some h, reg1)) :
    ((interfere reg1).poisoned = false →
      (send reg id msg writeErr interfere).result =
        (match writeErr with
         | none => .ok ()
         | some e => .error ("Failed to write to stdin: " ++ e))) ∧
    ((interfere reg1).poisoned = true →
      (send reg id msg writeErr interfere).result =
        .error "Mutex poisoned while trying to return stdin") := by
  constructor
  · intro hp4
    cases writeErr <;>
      · cases hmp : (interfere reg1).entries id with
        | none => simp [send, h1, sendRestore, hp4, hmp]
        | some mp4 =>
            cases hsn : mp4.stdin <;>
              simp [send, h1, sendRestore, hp4, hmp, hsn]
  · intro hp4
    cases writeErr <;>
      simp [send, h1, sendRestore, hp4]

/-- Witness for C4's amended theorem: a concrete failed write with a healthy
re-acquired lock reports exactly the write failure. -/
theorem C4_write_result_reporting_witness :
    (send ⟨false, fun k => if k = "p" then some ⟨some 1, some 2⟩ else none⟩
        "p" "hi" (some "broken pipe") id).result =
      .error ("Failed to write to stdin: " ++ "broken pipe") :=
  (C4_write_result_reporting
      ⟨false, fun k => if k = "p" then some ⟨some 1, some 2⟩ else none⟩
      ⟨false, RegMap.updateAt (fun k => if k = "p" then some ⟨some 1, some 2⟩ else none)
        "p" (fun p => { p with stdin := none })⟩
      "p" "hi" 2 (some "broken pipe") id rfl).1 rfl

/-- C3: evaluation of the three caller-invoked operations at a poisoned
registry lock.  Send and stop return lock-corruption errors to the caller as
the claim states, but spawn — after a successful OS process creation and
stream capture — panics at the registry insert (the unwrap on the lock in
cmd.rs lines 56-59) instead of returning an error, contradicting the claim
that no operation panics on a corrupted lock. -/
theorem C3_poisoned_lock_behavior :
    (send ⟨true, fun _ => none⟩ "id0" "m" none id).result =
      .error "Mutex poisoned" ∧
    (stop ⟨true, fun _ => none⟩ "id0" none).result =
      .error "Mutex poisoned: poisoned lock: another task failed inside" ∧
    (spawn_and_manage_process_internal ⟨true, fun _ => none⟩ "id0" (.ok ())
        (some 1) (some 2) (some 3) 0).result =
      .panic "called `Result::unwrap()` on an `Err` value" := by
  refine ⟨rfl, rfl, rfl⟩

/-- C8: if the created child exposes no stdin, stdout or stderr handle, spawn
returns the corresponding capture error and the already-created child is
killed when dropped (kill_on_drop); on full success the entry is inserted
with both the child handle and the stdin handle populated, and the insert
precedes the launch of the three background tasks in the action order. -/
theorem C8_stream_capture_and_insert (reg : Registry) (newId : String)
    (childH : ChildHandle) :
    (∀ outH errH,
      (spawn_and_manage_process_internal reg newId (.ok ()) none outH errH childH).result =
          .err ⟨.other, "Failed to capture stdin"⟩ ∧
      (spawn_and_manage_process_internal reg newId (.ok ()) none outH errH childH).actions =
          [.killChildOnDrop]) ∧
    (∀ sIn errH,
      (spawn_and_manage_process_internal reg newId (.ok ()) (some sIn) none errH childH).result =
          .err ⟨.other, "Failed to capture stdout"⟩ ∧
      (spawn_and_manage_process_internal reg newId (.ok ()) (some sIn) none errH childH).actions =
          [.killChildOnDrop]) ∧
    (∀ sIn outH,
      (spawn_and_manage_process_internal reg newId (.ok ()) (some sIn) (some outH) none childH).result =
          .err ⟨.other, "Failed to capture stderr"⟩ ∧
      (spawn_and_manage_process_internal reg newId (.ok ()) (some sIn) (some outH) none childH).actions =
          [.killChildOnDrop]) ∧
    (reg.poisoned = false → ∀ sIn outH errH,
      (spawn_and_manage_process_internal reg newId (.ok ())
          (some sIn) (some outH) (some errH) childH).result = .ok newId ∧
      (spawn_and_manage_process_internal reg newId (.ok ())
          (some sIn) (some outH) (some errH) childH).final.entries newId =
        some ⟨some childH, some sIn⟩ ∧
      (spawn_and_manage_process_internal reg newId (.ok ())
          (some sIn) (some outH) (some errH) childH).actions =
        [.insertEntry, .launchStdoutPump, .launchStderrPump, .launchMonitor]) := by
  refine ⟨fun outH errH => ⟨rfl, rfl⟩,
          fun sIn errH => ⟨rfl, rfl⟩,
          fun sIn outH => ⟨rfl, rfl⟩,
          fun hp sIn outH errH => ?_⟩
  simp [spawn_and_manage_process_internal, hp, ManagedProcess.new, ManagedProcess.with_stdin]

/-- Witness for C8: a concrete fully successful spawn against an empty,
healthy registry. -/
theorem C8_stream_capture_and_insert_witness :
    (spawn_and_manage_process_internal ⟨false, fun _ => none⟩ "u1" (.ok ())
        (some 11) (some 12) (some 13) 10).result = .ok "u1" ∧
    (spawn_and_manage_process_internal ⟨false, fun _ => none⟩ "u1" (.ok ())
        (some 11) (some 12) (some 13) 10).final.entries "u1" =
      some ⟨some 10, some 11⟩ ∧
    (spawn_and_manage_process_internal ⟨false, fun _ => none⟩ "u1" (.ok ())
        (some 11) (some 12) (some 13) 10).actions =
      [.insertEntry, .launchStdoutPump, .launchStderrPump, .launchMonitor] :=
  (C8_stream_capture_and_insert ⟨false, fun _ => none⟩ "u1" 10).2.2.2 rfl 11 12 13

/-- C9: when a stream capture fails after the OS process was created, spawn
returns an error before touching the registry and before launching any task:
the registry is unchanged and the action trace contains no insert and no
task launch. -/
theorem C9_failed_capture_frame (reg : Registry) (newId : String)
    (childH : ChildHandle) (stdinH stdoutH stderrH : Option Nat)
    (hfail : stdinH = none ∨ stdoutH = none ∨ stderrH = none) :
    (spawn_and_manage_process_internal reg newId (.ok ())
        stdinH stdoutH stderrH childH).final = reg ∧
    (∃ m, (spawn_and_manage_process_internal reg newId (.ok ())
        stdinH stdoutH stderrH childH).result = .err ⟨.other, m⟩) ∧
    SpawnAction.insertEntry ∉
      (spawn_and_manage_process_internal reg newId (.ok ())
        stdinH stdoutH stderrH childH).actions ∧
    SpawnAction.launchStdoutPump ∉
      (spawn_and_manage_process_internal reg newId (.ok ())
        stdinH stdoutH stderrH childH).actions ∧
    SpawnAction.launchStderrPump ∉
      (spawn_and_manage_process_internal reg newId (.ok ())
        stdinH stdoutH stderrH childH).actions ∧
    SpawnAction.launchMonitor ∉
      (spawn_and_manage_process_internal reg newId (.ok ())
        stdinH stdoutH stderrH childH).actions := by
  cases stdinH <;> cases stdoutH <;> cases stderrH <;>
    simp_all [spawn_and_manage_process_internal]

/-- Witness for C9: a concrete spawn whose stdout capture fails leaves the
registry untouched and launches nothing. -/
theorem C9_failed_capture_frame_witness :
    (spawn_and_manage_process_internal ⟨false, fun _ => none⟩ "u2" (.ok ())
        (some 21) none (some 23) 20).final = (⟨false, fun _ => none⟩ : Registry) ∧
    (∃ m, (spawn_and_manage_process_internal ⟨false, fun _ => none⟩ "u2" (.ok ())
        (some 21) none (some 23) 20).result = .err ⟨.other, m⟩) ∧
    SpawnAction.insertEntry ∉
      (spawn_and_manage_process_internal ⟨false, fun _ => none⟩ "u2" (.ok ())
        (some 21) none (some 23) 20).actions ∧
    SpawnAction.launchStdoutPump ∉
      (spawn_and_manage_process_internal ⟨false, fun _ => none⟩ "u2" (.ok ())
        (some 21) none (some 23) 20).actions ∧
    SpawnAction.launchStderrPump ∉
      (spawn_and_manage_process_internal ⟨false, fun _ => none⟩ "u2" (.ok ())
        (some 21) none (some 23) 20).actions ∧
    SpawnAction.launchMonitor ∉
      (spawn_and_manage_process_internal ⟨false, fun _ => none⟩ "u2" (.ok ())
        (some 21) none (some 23) 20).actions :=
  C9_failed_capture_frame ⟨false, fun _ => none⟩ "u2" 20 (some 21) none (some 23)
    (Or.inr (Or.inl rfl))

/-- C5: spawn retries exactly once and only on a not-found first failure; the
retry command is cmd.exe /c with the original command line on the Windows
family and otherwise sh -c with the shell-joined original command line; any
other first error is returned with a single attempt made; a failed retry is
returned after exactly two attempts with the fallback command spelled out in
the error message. -/
theorem C5_retry_policy (windows : Bool) (command : String) (args : List String)
    (outcome : String → List String → Except IoError String) :
    (∀ pid, outcome command args = .ok pid →
      (start_external_process windows command args outcome).result = .ok pid ∧
      (start_external_process windows command args outcome).attempts = [(command, args)]) ∧
    (∀ e, outcome command args = .error e → e.kind ≠ .notFound →
      (start_external_process windows command args outcome).result =
        .error ("Failed to start process (cmd: \x27" ++ command ++
                "\x27, args: " ++ debugFmtList args ++ "): " ++ e.msg) ∧
      (start_external_process windows command args outcome).attempts = [(command, args)]) ∧
    (∀ e, outcome command args = .error e → e.kind = .notFound →
      (start_external_process windows command args outcome).attempts =
        [(command, args), retryCommand windows command args] ∧
      retryCommand windows command args =
        (if windows then ("cmd.exe", "/c" :: command :: args)
         else ("sh", ["-c", shell_words_join (command :: args)])) ∧
      (∀ pid, outcome (retryCommand windows command args).1
                      (retryCommand windows command args).2 = .ok pid →
        (start_external_process windows command args outcome).result = .ok pid) ∧
      (∀ e2, outcome (retryCommand windows command args).1
                     (retryCommand windows command args).2 = .error e2 →
        (start_external_process windows command args outcome).result =
          .error ("Failed to start process on retry (cmd: \x27" ++
                  (retryCommand windows command args).1 ++ "\x27, args: " ++
                  debugFmtList (retryCommand windows command args).2 ++ "): " ++
                  e2.msg))) := by
  refine ⟨?_, ?_, ?_⟩
  · intro pid hok
    simp [start_external_process, hok]
  · intro e herr hk
    simp [start_external_process, herr, hk]
  · intro e herr hk
    refine ⟨?_, rfl, ?_, ?_⟩
    · cases h2 : outcome (retryCommand windows command args).1
                         (retryCommand windows command args).2 <;>
        simp [start_external_process, herr, hk, h2]
    · intro pid h2
      simp [start_external_process, herr, hk, h2]
    · intro e2 h2
      simp [start_external_process, herr, hk, h2]

/-- Witness for C5: a concrete not-found spawn of not_a_real_command_xyz on a
non-Windows host whose shell retry fails as well; exactly two attempts are
made and the final message names the sh -c fallback. -/
theorem C5_retry_policy_witness :
    (start_external_process false "not_a_real_command_xyz" []
        (fun c _ => if c = "sh" then .error ⟨.other, "x127"⟩
                    else .error ⟨.notFound, "nf"⟩)).attempts =
      [("not_a_real_command_xyz", []),
       ("sh", ["-c", shell_words_join ["not_a_real_command_xyz"]])] ∧
    (start_external_process false "not_a_real_command_xyz" []
        (fun c _ => if c = "sh" then .error ⟨.other, "x127"⟩
                    else .error ⟨.notFound, "nf"⟩)).result =
      .error ("Failed to start process on retry (cmd: \x27" ++ "sh" ++
              "\x27, args: " ++
              debugFmtList ["-c", shell_words_join ["not_a_real_command_xyz"]] ++
              "): " ++ "x127") :=
  ⟨((C5_retry_policy false "not_a_real_command_xyz" []
      (fun c _ => if c = "sh" then .error ⟨.other, "x127"⟩
                  else .error ⟨.notFound, "nf"⟩)).2.2
      ⟨.notFound, "nf"⟩ rfl rfl).1,
   ((C5_retry_policy false "not_a_real_command_xyz" []
      (fun c _ => if c = "sh" then .error ⟨.other, "x127"⟩
                  else .error ⟨.notFound, "nf"⟩)).2.2
      ⟨.notFound, "nf"⟩ rfl rfl).2.2.2 ⟨.other, "x127"⟩ rfl⟩

/-- C6 as stated is false for the stderr pump: on the read sequence consisting
of a whitespace-only line followed by a read error, the stderr pump emits an
event whose trimmed payload is empty (refuting emission only for non-empty
trimmed lines) and emits no process_error event before terminating (refuting
the error-event requirement). -/
theorem C6_counterexample :
    stderrPump "p" [.line " \n", .err "boom"] = [("process_stderr_p", "")] := by
  rfl

/-- C6 amended: the stdout pump emits a process_message event exactly for the
lines with non-empty trimmed text, with the trimmed text as payload, and on a
read error emits a process_error event and terminates — every emitted event is
one of these two shapes; the stderr pump emits a process_stderr event for
every delivered line, whitespace-only lines included, and on a read error
terminates without emitting anything. -/
theorem C6_pump_events (id : String) :
    (∀ s rest, handle_stdout id (.line s :: rest) =
      if rustTrim s = "" then handle_stdout id rest
      else ("process_message_" ++ id, rustTrim s) :: handle_stdout id rest) ∧
    (∀ e rest, handle_stdout id (.err e :: rest) =
      [("process_error_" ++ id, "Error reading stdout: " ++ e)]) ∧
    (∀ reads, ∀ ev ∈ handle_stdout id reads,
      (ev.1 = "process_message_" ++ id ∧ ev.2 ≠ "") ∨
      ev.1 = "process_error_" ++ id) ∧
    (∀ s rest, stderrPump id (.line s :: rest) =
      ("process_stderr_" ++ id, rustTrim s) :: stderrPump id rest) ∧
    (∀ e rest, stderrPump id (.err e :: rest) = []) := by
  refine ⟨fun s rest => rfl, fun e rest => rfl, ?_, fun s rest => rfl, fun e rest => rfl⟩
  intro reads
  induction reads with
  | nil => simp [handle_stdout]
  | cons r rest ih =>
      cases r with
      | eof => simp [handle_stdout]
      | line s =>
          by_cases hs : rustTrim s = ""
          · simpa [handle_stdout, hs] using ih
          · intro ev hev
            rw [handle_stdout, if_neg hs] at hev
            rcases List.mem_cons.mp hev with h | h
            · exact Or.inl ⟨by rw [h], by rw [h]; exact hs⟩
            · exact ih ev h
      | err e =>
          intro ev hev
          simp [handle_stdout] at hev
          exact Or.inr (by rw [hev])

/-- Witness for C6: the stdout pump run on one line delivering hi produces an
event of the message shape with a non-empty payload. -/
theorem C6_pump_events_witness :
    (("process_message_p", "hi").1 = "process_message_" ++ "p" ∧
     ("process_message_p", "hi").2 ≠ "") ∨
    ("process_message_p", "hi").1 = "process_error_" ++ "p" :=
  (C6_pump_events "p").2.2.1 [.line "hi\n"] ("process_message_p", "hi") (by decide)

end DaanMcp
